import Mathlib

/-!
Shallow embedding of the decision engine of the `ai-game-agent` repository
(`src/agent/agent.py`, `src/agent/actions.py`, `src/agent/ollama_client.py`,
`src/agent/config.py`) together with proofs about it.

Modelling conventions:
* Python `float` timestamps, intervals and durations are modelled as exact
  rationals (`ℚ`); all properties proved here are order-theoretic comparisons.
* Python `dict` values are modelled as insertion-ordered association lists,
  matching CPython's guaranteed insertion-order iteration.
* JSON values produced by the standard-library `json` module (an external
  dependency of the repository, not repository code) are modelled by the
  inductive type `JValue`; `json.loads` / `JSONDecoder.raw_decode` are treated
  as an external collaborator whose output is an arbitrary `Option JValue`
  (`none` models "no payload could be extracted").
* Python's `isinstance(v, int)` is true for `bool` values as well; `asInt`
  reflects that.
-/

namespace AgentModel

/-- Fuel-driven helper for `bitCount`; the fuel argument only forces
structural termination and is always ample when set to the number itself. -/
def bitCountGo : Nat → Nat → Nat
  | _, 0 => 0
  | 0, _ + 1 => 0
  | fuel + 1, n + 1 => (n + 1) % 2 + bitCountGo fuel ((n + 1) / 2)

/-- Population count of a natural number: `int.bit_count()` in Python. -/
def bitCount (n : Nat) : Nat := bitCountGo n n

/-- The `Action` frozen dataclass of `src/agent/actions.py` (lines 10-16). -/
structure Action where
  type : String
  x : Option Int := none
  y : Option Int := none
  key : Option String := none
  duration_s : Option ℚ := none
deriving DecidableEq, Repr

/-- JSON values, the output type of Python's `json.loads`. -/
inductive JValue where
  | jnull : JValue
  | jbool : Bool → JValue
  | jint : Int → JValue
  | jfloat : ℚ → JValue
  | jstr : String → JValue
  | jarr : List JValue → JValue
  | jobj : List (String × JValue) → JValue

/-- The configuration fields of `AgentConfig` (`src/agent/config.py`) that the
decision engine reads. -/
structure AgentConfig where
  llm_interval_s : ℚ
  cache_ttl_s : ℚ
  frame_change_threshold : Nat
  cooldown_default_s : ℚ
  cooldown_key_tap_s : ℚ
deriving DecidableEq, Repr

/-- The decision cache: `self._cache : dict[int, tuple[float, list[Action]]]`
(agent.py line 61), as an insertion-ordered association list. -/
abbrev Cache := List (Nat × ℚ × List Action)

/-- The mutable decision-engine state owned by `GameAgent`
(agent.py lines 59-63). -/
structure AgentSt where
  last_llm_ts : ℚ
  last_frame_sig : Option Nat
  cache : Cache
  cooldown_until_ts : ℚ
  empty_response_count : Nat
deriving DecidableEq, Repr

/-- `PyError` models a raised Python exception reaching the tick boundary. -/
inductive PyError where
  | attributeError : PyError
deriving DecidableEq, Repr

/-- The `OllamaResponse` frozen dataclass (`src/agent/ollama_client.py`
lines 11-17): its only field is `raw`; its only property is `text`. -/
structure OllamaResponse where
  raw : List (String × JValue)

/-- Attribute access `response.request_ms` performed by `GameAgent.run`
(agent.py line 225).  The `OllamaResponse` dataclass declares no field or
property named `request_ms` (ollama_client.py lines 11-17), so in Python this
access raises `AttributeError` unconditionally. -/
def OllamaResponse.request_ms (_ : OllamaResponse) : Except PyError ℚ :=
  .error .attributeError

/-- Lookup in a JSON object: `item.get(k)` on the parsed dict. -/
def jGet (kvs : List (String × JValue)) (k : String) : Option JValue :=
  (kvs.find? (fun e => e.1 == k)).map (fun e => e.2)

/-- Python `isinstance(v, int)` view of a JSON value (`bool` is an `int` in
Python; JSON floats are not), as used on `item.get("x")`. -/
def asInt : Option JValue → Option Int
  | some (.jint n) => some n
  | some (.jbool b) => some (if b then 1 else 0)
  | _ => none

/-- Python `isinstance(v, (int, float))` view of a JSON value, followed by the
`float(v)` conversion done by `parse_actions`. -/
def asNum : Option JValue → Option ℚ
  | some (.jint n) => some (n : ℚ)
  | some (.jbool b) => some (if b then 1 else 0)
  | some (.jfloat q) => some q
  | _ => none

/-- Python `str.strip()` with no arguments: remove leading and trailing
whitespace (the validation in `parse_actions` only tests whether the result
is empty). -/
def pyStrip (s : String) : String :=
  String.mk (((s.data.dropWhile Char.isWhitespace).reverse.dropWhile Char.isWhitespace).reverse)

/-- The action types accepted by `GameAgent.parse_actions`
(agent.py lines 126-134). -/
def allowedTypes : List String :=
  ["move_mouse", "click_left", "click_right", "tap_key", "press_key",
   "release_key", "wait"]

/-- Validation of one element of the JSON payload: the body of the `for` loop
of `GameAgent.parse_actions` (agent.py lines 135-172), with `none` for every
`continue` (dropped element) and `some a` for an appended action. -/
def itemAction (width height : Int) : JValue → Option Action
  | .jobj kvs =>
    match jGet kvs "type" with
    | some (.jstr ty) =>
      if ¬ allowedTypes.contains ty then none
      else if ty == "move_mouse" then
        match asInt (jGet kvs "x"), asInt (jGet kvs "y") with
        | some x, some y =>
          if x < 0 ∨ y < 0 ∨ width ≤ x ∨ height ≤ y then none
          else some { type := ty, x := some x, y := some y }
        | _, _ => none
      else if ["press_key", "release_key", "tap_key"].contains ty then
        match jGet kvs "key" with
        | some (.jstr k) =>
          if pyStrip k == "" then none else some { type := ty, key := some k }
        | _ => none
      else if ty == "wait" then
        match asNum (jGet kvs "duration_s") with
        | some d => if d ≤ 0 then none else some { type := ty, duration_s := some d }
        | _ => none
      else some { type := ty }
    | _ => none
  | _ => none

/-- The accumulation loop of `GameAgent.parse_actions` (agent.py
lines 135-174): append each validated action, breaking as soon as the
accumulated list reaches 3 elements. -/
def parseLoop (width height : Int) : List JValue → List Action → List Action
  | [], acc => acc
  | item :: rest, acc =>
    match itemAction width height item with
    | none => parseLoop width height rest acc
    | some a =>
      let acc' := acc ++ [a]
      if 3 ≤ acc'.length then acc' else parseLoop width height rest acc'

/-- `GameAgent.parse_actions` (agent.py lines 115-175) at the payload level:
the argument is the result of extracting a JSON payload from the raw reply
text (`_extract_payload`, built on the standard-library `json` module, returns
an arbitrary JSON value or `None`; an empty reply also yields no payload).
Non-list payloads yield the empty action list; the result is truncated to at
most 3 actions (`actions[:3]`). -/
def parse_actions (payload : Option JValue) (width height : Int) : List Action :=
  match payload with
  | some (.jarr items) => (parseLoop width height items []).take 3
  | _ => []

/-- Whether a JSON payload is a list (`isinstance(payload, list)`). -/
def isListPayload : JValue → Bool
  | .jarr _ => true
  | _ => false

/-- `GameAgent._frame_changed_significantly` (agent.py lines 287-291):
Hamming distance from the last-inferred fingerprint is at least the
configured threshold. -/
def frame_changed_significantly (cfg : AgentConfig) (last_frame_sig : Option Nat)
    (frame_sig : Nat) : Bool :=
  match last_frame_sig with
  | none => true
  | some last => decide (cfg.frame_change_threshold ≤ bitCount (Nat.xor frame_sig last))

/-- `GameAgent.should_call_llm` (agent.py lines 276-285). -/
def should_call_llm (cfg : AgentConfig) (st : AgentSt) (now : ℚ) (frame_sig : Nat) : Bool :=
  if now < st.cooldown_until_ts then false
  else if st.last_frame_sig = none then true
  else if now - st.last_llm_ts < cfg.llm_interval_s then
    frame_changed_significantly cfg st.last_frame_sig frame_sig
  else if 3 ≤ st.empty_response_count ∧
      frame_changed_significantly cfg st.last_frame_sig frame_sig = true then
    true
  else frame_changed_significantly cfg st.last_frame_sig frame_sig

/-- `GameAgent._prune_cache` (agent.py lines 307-314): drop every entry whose
age exceeds the TTL. -/
def prune_cache (cfg : AgentConfig) (now : ℚ) (cache : Cache) : Cache :=
  cache.filter (fun e => decide (now - e.2.1 ≤ cfg.cache_ttl_s))

/-- `self._cache.get(frame_sig)` (agent.py line 295). -/
def cacheGet (cache : Cache) (frame_sig : Nat) : Option (ℚ × List Action) :=
  (cache.find? (fun e => e.1 == frame_sig)).map (fun e => e.2)

/-- The similarity-fallback scan of `GameAgent._cached_actions` (agent.py
lines 300-304): first live entry within the Hamming threshold, in insertion
order. -/
def cacheScan (cfg : AgentConfig) (frame_sig : Nat) (now : ℚ) : Cache → Option (List Action)
  | [] => none
  | (sig, cached_ts, actions) :: rest =>
    if cfg.cache_ttl_s < now - cached_ts then cacheScan cfg frame_sig now rest
    else if bitCount (Nat.xor frame_sig sig) ≤ cfg.frame_change_threshold then some actions
    else cacheScan cfg frame_sig now rest

/-- `GameAgent._cached_actions` (agent.py lines 293-305): prune, then exact
lookup guarded by the TTL, then the similarity-fallback scan.  Returns the
pruned cache (the method mutates `self._cache`) together with the lookup
result. -/
def cached_actions (cfg : AgentConfig) (cache : Cache) (frame_sig : Nat) (now : ℚ) :
    Cache × Option (List Action) :=
  let pruned := prune_cache cfg now cache
  let res :=
    match cacheGet pruned frame_sig with
    | some (cached_ts, actions) =>
      if now - cached_ts ≤ cfg.cache_ttl_s then some actions
      else cacheScan cfg frame_sig now pruned
    | none => cacheScan cfg frame_sig now pruned
  (pruned, res)

/-- `self._cache[frame_sig] = (now, actions)` (agent.py line 236): dict
assignment, replacing in place when the key exists, appending otherwise. -/
def cacheStore (cache : Cache) (frame_sig : Nat) (now : ℚ) (actions : List Action) : Cache :=
  if cache.any (fun e => e.1 == frame_sig) then
    cache.map (fun e => if e.1 == frame_sig then (frame_sig, now, actions) else e)
  else cache ++ [(frame_sig, now, actions)]

/-- The cooldown duration computed by `GameAgent._apply_cooldown`
(agent.py lines 317-321) from an action batch. -/
def computedCooldown (cfg : AgentConfig) (actions : List Action) : ℚ :=
  let cooldown : ℚ := if actions.isEmpty then 0 else cfg.cooldown_default_s
  if actions.any (fun a => ["tap_key", "press_key", "release_key"].contains a.type) then
    max cooldown cfg.cooldown_key_tap_s
  else cooldown

/-- `GameAgent._apply_cooldown` (agent.py lines 316-323): when the computed
cooldown is positive, extend `self._cooldown_until_ts` to
`max(current, now + cooldown)`. -/
def apply_cooldown (cfg : AgentConfig) (actions : List Action) (now : ℚ) (cur : ℚ) : ℚ :=
  if 0 < computedCooldown cfg actions then max cur (now + computedCooldown cfg actions)
  else cur

/-- `self._last_action_time.get(key)` in `ActionExecutor._too_frequent`
(actions.py line 88). -/
def lastActionGet (m : List (String × ℚ)) (k : String) : Option ℚ :=
  (m.find? (fun e => e.1 == k)).map (fun e => e.2)

/-- `self._last_action_time[key] = now` (actions.py line 92): dict
assignment. -/
def lastActionSet (m : List (String × ℚ)) (k : String) (now : ℚ) : List (String × ℚ) :=
  if m.any (fun e => e.1 == k) then
    m.map (fun e => if e.1 == k then (k, now) else e)
  else m ++ [(k, now)]

/-- `ActionExecutor._too_frequent` (actions.py lines 86-93), with the call
time `now` (`time.monotonic()` at line 87) made explicit.  Returns the
denial flag (`true` = too frequent, action skipped) and the updated
last-fired map. -/
def too_frequent (k : String) (min_interval_s : ℚ) (now : ℚ)
    (m : List (String × ℚ)) : Bool × List (String × ℚ) :=
  match lastActionGet m k with
  | some last_time =>
    if now - last_time < min_interval_s then (true, m)
    else (false, lastActionSet m k now)
  | none => (false, lastActionSet m k now)

/-- What one loop iteration of `GameAgent.run` did. -/
inductive TickOutcome where
  | hit : List Action → TickOutcome
  | skip : TickOutcome
  | error : TickOutcome
  | inferred : List Action → TickOutcome
deriving DecidableEq, Repr

/-- One iteration of the loop body of `GameAgent.run` (agent.py
lines 178-256), from the point where `now` is read (line 189).  External
collaborators are parameters: `gen` is the outcome of
`OllamaClient.generate` (`Except.error` models a raised network/HTTP
exception), `payload` the standard-library JSON extraction of the reply
text, `width`/`height` the captured image's size.  Exceptions escaping the
body are caught by the `except` handler at lines 254-256, modelled by
`TickOutcome.error`. -/
def run_tick (cfg : AgentConfig) (st : AgentSt) (now : ℚ) (frame_sig : Nat)
    (gen : Except Unit OllamaResponse) (payload : Option JValue)
    (width height : Int) : AgentSt × TickOutcome :=
  let pr := cached_actions cfg st.cache frame_sig now
  let st1 : AgentSt := { st with cache := pr.1 }
  match pr.2 with
  | some acts =>
    ({ st1 with cooldown_until_ts := apply_cooldown cfg acts now st1.cooldown_until_ts },
     .hit acts)
  | none =>
    if should_call_llm cfg st1 now frame_sig = false then (st1, .skip)
    else
      match gen with
      | .error _ => (st1, .error)
      | .ok response =>
        match response.request_ms with
        | .error _ => (st1, .error)
        | .ok _ =>
          let actions := parse_actions payload width height
          let cache2 := cacheStore st1.cache frame_sig now actions
          let st2 : AgentSt :=
            { st1 with
                cache := cache2
                last_llm_ts := now
                last_frame_sig := some frame_sig }
          if actions.isEmpty then
            ({ st2 with empty_response_count := st2.empty_response_count + 1 },
             .inferred actions)
          else
            ({ st2 with
                empty_response_count := 0
                cooldown_until_ts := apply_cooldown cfg actions now st2.cooldown_until_ts },
             .inferred actions)

/-- The default configuration values of `AgentConfig`
(`src/agent/config.py` lines 13-18). -/
def cfgDefault : AgentConfig :=
  { llm_interval_s := 1.5, cache_ttl_s := 3, frame_change_threshold := 6,
    cooldown_default_s := 0.6, cooldown_key_tap_s := 4 }

/-- A state after three consecutive empty inference results: last inference at
time 0 with fingerprint 0, no cooldown, empty cache. -/
def stThreeEmpty : AgentSt :=
  { last_llm_ts := 0, last_frame_sig := some 0, cache := [],
    cooldown_until_ts := 0, empty_response_count := 3 }

/-- A fresh state before any inference call (agent.py lines 59-63). -/
def stFirstTick : AgentSt :=
  { last_llm_ts := 0, last_frame_sig := none, cache := [],
    cooldown_until_ts := 0, empty_response_count := 0 }

/-- A well-formed reply from the inference collaborator whose `text` is
the JSON array `[]`. -/
def respEmptyList : OllamaResponse := { raw := [("response", JValue.jstr "[]")] }

/-- The reply payload of end-to-end scenario 2, as parsed by `json.loads`. -/
def scenario2Payload : JValue :=
  .jarr
    [ .jobj [("type", .jstr "move_mouse"), ("x", .jint 10), ("y", .jint 20)],
      .jobj [("type", .jstr "move_mouse"), ("x", .jint 999), ("y", .jint 20)],
      .jobj [("type", .jstr "press_key"), ("key", .jstr "1")],
      .jobj [("type", .jstr "release_key"), ("key", .jstr "")],
      .jobj [("type", .jstr "click_left")],
      .jobj [("type", .jstr "wait"), ("duration_s", .jfloat 0.5)],
      .jobj [("type", .jstr "unknown")] ]

/-- A state whose cache holds one fresh entry for fingerprint 7 with an empty
action batch, and distinctive values in the inference-related fields. -/
def stHit : AgentSt :=
  { last_llm_ts := 5, last_frame_sig := some 9, cache := [(7, 0, [])],
    cooldown_until_ts := 0, empty_response_count := 2 }

theorem mem_prune_cache {cfg : AgentConfig} {now : ℚ} {cache : Cache} {e : Nat × ℚ × List Action}
    (h : e ∈ prune_cache cfg now cache) : e ∈ cache ∧ now - e.2.1 ≤ cfg.cache_ttl_s := by
  have := List.mem_filter.mp h
  exact ⟨this.1, by simpa using this.2⟩

theorem cacheScan_eq_some {cfg : AgentConfig} {frame_sig : Nat} {now : ℚ} {cache : Cache}
    {acts : List Action} (h : cacheScan cfg frame_sig now cache = some acts) :
    ∃ sig ts, (sig, ts, acts) ∈ cache ∧ now - ts ≤ cfg.cache_ttl_s := by
  induction cache with
  | nil => simp [cacheScan] at h
  | cons e rest ih =>
    obtain ⟨s, ts, a⟩ := e
    rw [cacheScan] at h
    by_cases hexp : cfg.cache_ttl_s < now - ts
    · rw [if_pos hexp] at h
      obtain ⟨sig, ts', hmem, hle⟩ := ih h
      exact ⟨sig, ts', List.mem_cons_of_mem _ hmem, hle⟩
    · rw [if_neg hexp] at h
      by_cases hnear : bitCount (Nat.xor frame_sig s) ≤ cfg.frame_change_threshold
      · rw [if_pos hnear] at h
        obtain rfl : a = acts := by simpa using h
        exact ⟨s, ts, List.mem_cons_self _ _, not_lt.mp hexp⟩
      · rw [if_neg hnear] at h
        obtain ⟨sig, ts', hmem, hle⟩ := ih h
        exact ⟨sig, ts', List.mem_cons_of_mem _ hmem, hle⟩

theorem cacheScan_eq_none {cfg : AgentConfig} {frame_sig : Nat} {now : ℚ} {cache : Cache}
    (h : ∀ e ∈ cache, now - e.2.1 ≤ cfg.cache_ttl_s →
      cfg.frame_change_threshold < bitCount (Nat.xor frame_sig e.1)) :
    cacheScan cfg frame_sig now cache = none := by
  induction cache with
  | nil => rfl
  | cons e rest ih =>
    obtain ⟨s, ts, a⟩ := e
    rw [cacheScan]
    by_cases hexp : cfg.cache_ttl_s < now - ts
    · rw [if_pos hexp]
      exact ih fun e he hl => h e (List.mem_cons_of_mem _ he) hl
    · rw [if_neg hexp]
      have hfar := h (s, ts, a) (List.mem_cons_self _ _) (not_lt.mp hexp)
      rw [if_neg (not_le.mpr hfar)]
      exact ih fun e he hl => h e (List.mem_cons_of_mem _ he) hl

theorem cacheGet_mem {cache : Cache} {frame_sig : Nat} {ts : ℚ} {acts : List Action}
    (h : cacheGet cache frame_sig = some (ts, acts)) : (frame_sig, ts, acts) ∈ cache := by
  rw [cacheGet] at h
  obtain ⟨e, hfind, he⟩ := Option.map_eq_some'.mp h
  have hmem := List.mem_of_find?_eq_some hfind
  have h1 : e.1 = frame_sig := by simpa using List.find?_some hfind
  obtain ⟨s, ts', a⟩ := e
  simp only at h1 he
  injection he with h2 h3
  subst h1 h2 h3
  exact hmem

/-- Lookup in a single-entry live cache: the entry is returned exactly when the
Hamming distance is within the threshold (through the exact branch when the
fingerprints coincide, through the similarity fallback otherwise). -/
theorem cached_actions_single (cfg : AgentConfig) (sigA : Nat) (t : ℚ) (acts : List Action)
    (sigB : Nat) (now : ℚ) (hlive : now - t ≤ cfg.cache_ttl_s) :
    (cached_actions cfg [(sigA, t, acts)] sigB now).2 =
      if bitCount (Nat.xor sigB sigA) ≤ cfg.frame_change_threshold then some acts
      else none := by
  have hprune : prune_cache cfg now [(sigA, t, acts)] = [(sigA, t, acts)] := by
    simp only [prune_cache, List.filter, decide_eq_true hlive]
  by_cases hBA : sigA = sigB
  · subst hBA
    have hget : cacheGet [(sigA, t, acts)] sigA = some (t, acts) := by
      simp [cacheGet]
    have hx : Nat.xor sigA sigA = 0 := Nat.xor_self sigA
    rw [cached_actions]
    simp only [hprune, hget, if_pos hlive]
    rw [if_pos (le_of_eq_of_le (congrArg bitCount hx) (Nat.zero_le _))]
  · have hbeq : (sigA == sigB) = false := beq_eq_false_iff_ne.mpr hBA
    have hget : cacheGet [(sigA, t, acts)] sigB = none := by
      simp [cacheGet, List.find?, hbeq]
    rw [cached_actions]
    simp only [hprune, hget]
    rw [cacheScan, if_neg (not_lt.mpr hlive)]
    by_cases hnear : bitCount (Nat.xor sigB sigA) ≤ cfg.frame_change_threshold
    · rw [if_pos hnear, if_pos hnear]
    · rw [if_neg hnear, if_neg hnear]
      rfl

/-- C1: with no cooldown active, a prior inference call recorded
(fingerprint 0 at time 0), the interval elapsed (now = 2 ≥ 1.5), three
consecutive empty results, and a new fingerprint at Hamming distance 1 < 6
from the last-inferred one, the claim says `should_call_llm` returns `true`
unconditionally; the code returns `false`, because the empty-escape branch
(agent.py line 283) additionally requires `_frame_changed_significantly`,
which makes that branch dead code. -/
theorem c1_empty_escape_requires_significant_change :
    stThreeEmpty.cooldown_until_ts ≤ 2 ∧
    stThreeEmpty.last_frame_sig ≠ none ∧
    cfgDefault.llm_interval_s ≤ 2 - stThreeEmpty.last_llm_ts ∧
    3 ≤ stThreeEmpty.empty_response_count ∧
    bitCount (Nat.xor 1 0) < cfgDefault.frame_change_threshold ∧
    should_call_llm cfgDefault stThreeEmpty 2 1 = false := by
  have hsig : frame_changed_significantly cfgDefault stThreeEmpty.last_frame_sig 1 = false := by
    decide
  refine ⟨by norm_num [stThreeEmpty], by simp [stThreeEmpty], ?_, by decide, by decide, ?_⟩
  · norm_num [stThreeEmpty, cfgDefault]
  · rw [should_call_llm]
    rw [if_neg (by norm_num [stThreeEmpty] : ¬ ((2 : ℚ) < stThreeEmpty.cooldown_until_ts))]
    rw [if_neg (by simp [stThreeEmpty] : ¬ (stThreeEmpty.last_frame_sig = none))]
    rw [if_neg (by norm_num [stThreeEmpty, cfgDefault] :
      ¬ ((2 : ℚ) - stThreeEmpty.last_llm_ts < cfgDefault.llm_interval_s))]
    simp [hsig]

/-- C2: on a first tick (cache miss, gate approves) where
`OllamaClient.generate` returns normally with reply text `[]`, the loop body
aborts with an exception instead of completing the step-5 pipeline: line 225
of agent.py reads `response.request_ms`, an attribute the returned
`OllamaResponse` does not have, so `AttributeError` is raised before the reply
is parsed, executed, cached, or the last-inference timestamp and fingerprint
are updated — the state is left unchanged and the outcome is an error. -/
theorem c2_latency_attribute_aborts_pipeline :
    (cached_actions cfgDefault stFirstTick.cache 42 1).2 = none ∧
    should_call_llm cfgDefault stFirstTick 1 42 = true ∧
    run_tick cfgDefault stFirstTick 1 42 (Except.ok respEmptyList)
      (some (JValue.jarr [])) 100 80 = (stFirstTick, TickOutcome.error) := by
  refine ⟨rfl, rfl, rfl⟩

/-- C4: end-to-end scenario 2 — the seven-element reply against a 100×80
frame validates to exactly `[move_mouse(10,20), press_key("1"), click_left]`:
the out-of-bounds coordinate is dropped, the empty key is dropped, the
unknown type is dropped, and the result is truncated to 3 in input order. -/
theorem c4_scenario2_validation :
    parse_actions (some scenario2Payload) 100 80 =
      [{ type := "move_mouse", x := some 10, y := some 20 },
       { type := "press_key", key := some "1" },
       { type := "click_left" }] := by
  decide

/-- C3: a lookup never returns an expired entry.  Any actions returned by
`_cached_actions` are backed by an entry of the cache whose age is within the
TTL, through either branch; in particular a single entry stored at time `t`
and looked up at `t + TTL + ε` with `ε > 0` is not returned (its lazy physical
presence notwithstanding, since pruning and the scan's own age test both
exclude it). -/
theorem c3_ttl_never_returns_expired (cfg : AgentConfig) :
    (∀ (cache : Cache) (frame_sig : Nat) (now : ℚ) (acts : List Action),
        (cached_actions cfg cache frame_sig now).2 = some acts →
        ∃ sig ts, (sig, ts, acts) ∈ cache ∧ now - ts ≤ cfg.cache_ttl_s) ∧
    (∀ (sigA : Nat) (t : ℚ) (acts : List Action) (sigB : Nat) (ε : ℚ), 0 < ε →
        (cached_actions cfg [(sigA, t, acts)] sigB (t + cfg.cache_ttl_s + ε)).2 = none) := by
  constructor
  · intro cache frame_sig now acts h
    rw [cached_actions] at h
    simp only at h
    have hscan : cacheScan cfg frame_sig now (prune_cache cfg now cache) = some acts →
        ∃ sig ts, (sig, ts, acts) ∈ cache ∧ now - ts ≤ cfg.cache_ttl_s := by
      intro hs
      obtain ⟨sig, ts, hmem, hle⟩ := cacheScan_eq_some hs
      exact ⟨sig, ts, (mem_prune_cache hmem).1, hle⟩
    split at h
    · rename_i cached_ts actions hget
      split at h
      · rename_i hfresh
        obtain rfl : actions = acts := by simpa using h
        exact ⟨frame_sig, cached_ts, (mem_prune_cache (cacheGet_mem hget)).1, hfresh⟩
      · exact hscan h
    · exact hscan h
  · intro sigA t acts sigB ε hε
    have hexp : ¬ (t + cfg.cache_ttl_s + ε - t ≤ cfg.cache_ttl_s) := by
      intro hc
      linarith
    have hprune : prune_cache cfg (t + cfg.cache_ttl_s + ε) [(sigA, t, acts)] = [] := by
      simp only [prune_cache, List.filter, decide_eq_false hexp]
    rw [cached_actions]
    simp only [hprune]
    rfl

/-- C3 witness: the single-entry lookup at `t + TTL + 1` returns nothing. -/
theorem c3_witness :
    (cached_actions cfgDefault [(5, 0, [])] 5 (0 + cfgDefault.cache_ttl_s + 1)).2 = none :=
  (c3_ttl_never_returns_expired cfgDefault).2 5 0 [] 5 1 (by norm_num)

/-- C5: with a live entry stored under fingerprint `A` and no live exact entry
for the looked-up fingerprint `B`, the lookup returns `A`'s actions whenever
the Hamming distance `popcount(A xor B)` is within the threshold; and for any
cache in which every live entry is strictly farther than the threshold from
`B`, the lookup returns nothing. -/
theorem c5_similarity_fallback (cfg : AgentConfig) :
    (∀ (sigA : Nat) (t : ℚ) (acts : List Action) (sigB : Nat) (now : ℚ),
        sigB ≠ sigA → now - t ≤ cfg.cache_ttl_s →
        bitCount (Nat.xor sigB sigA) ≤ cfg.frame_change_threshold →
        (cached_actions cfg [(sigA, t, acts)] sigB now).2 = some acts) ∧
    (∀ (cache : Cache) (sigB : Nat) (now : ℚ),
        (∀ e ∈ cache, now - e.2.1 ≤ cfg.cache_ttl_s →
            cfg.frame_change_threshold < bitCount (Nat.xor sigB e.1)) →
        (cached_actions cfg cache sigB now).2 = none) := by
  constructor
  · intro sigA t acts sigB now _ hlive hnear
    rw [cached_actions_single cfg sigA t acts sigB now hlive, if_pos hnear]
  · intro cache sigB now hfar
    have hfar' : ∀ e ∈ prune_cache cfg now cache,
        now - e.2.1 ≤ cfg.cache_ttl_s →
        cfg.frame_change_threshold < bitCount (Nat.xor sigB e.1) := by
      intro e he hl
      exact hfar e (mem_prune_cache he).1 hl
    have hscan := cacheScan_eq_none hfar'
    rw [cached_actions]
    simp only
    rcases hget : cacheGet (prune_cache cfg now cache) sigB with _ | ⟨ts, a⟩
    · exact hscan
    · exfalso
      have hmem := cacheGet_mem hget
      have hp := mem_prune_cache hmem
      have hlt := hfar _ hp.1 hp.2
      have hx : Nat.xor sigB sigB = 0 := Nat.xor_self sigB
      rw [hx] at hlt
      simp only [bitCount, bitCountGo] at hlt
      exact absurd hlt (Nat.not_lt_zero _)

/-- C5 witness: fingerprint 1 at Hamming distance 1 ≤ 6 from stored
fingerprint 0 hits the fallback; a cache whose only live entry is at
distance 7 > 6 misses. -/
theorem c5_witness :
    (cached_actions cfgDefault [(0, 0, [{ type := "click_left" }])] 1 1).2 =
      some [{ type := "click_left" }] ∧
    (cached_actions cfgDefault [(127, 0, [])] 0 1).2 = none := by
  constructor
  · exact (c5_similarity_fallback cfgDefault).1 0 0 _ 1 1 (by decide) (by norm_num [cfgDefault])
      (by decide)
  · refine (c5_similarity_fallback cfgDefault).2 _ 0 1 ?_
    intro e he _
    obtain rfl : e = (127, 0, []) := by simpa using he
    decide

/-- C10: both threshold comparisons include the boundary.  Against a live
single-entry cache holding the last-inferred fingerprint: at Hamming distance
exactly the threshold the lookup still returns the entry (cache-similar) while
`_frame_changed_significantly` is already true (significant); strictly below
the threshold the frame is similar and not significant; strictly above, it is
significant and not similar. -/
theorem c10_boundary_inclusive_both_sides (cfg : AgentConfig) (lastSig frame_sig : Nat)
    (t now : ℚ) (acts : List Action) (hlive : now - t ≤ cfg.cache_ttl_s) :
    (bitCount (Nat.xor frame_sig lastSig) = cfg.frame_change_threshold →
        (cached_actions cfg [(lastSig, t, acts)] frame_sig now).2 = some acts ∧
        frame_changed_significantly cfg (some lastSig) frame_sig = true) ∧
    (bitCount (Nat.xor frame_sig lastSig) < cfg.frame_change_threshold →
        (cached_actions cfg [(lastSig, t, acts)] frame_sig now).2 = some acts ∧
        frame_changed_significantly cfg (some lastSig) frame_sig = false) ∧
    (cfg.frame_change_threshold < bitCount (Nat.xor frame_sig lastSig) →
        (cached_actions cfg [(lastSig, t, acts)] frame_sig now).2 = none ∧
        frame_changed_significantly cfg (some lastSig) frame_sig = true) := by
  have hsingle := cached_actions_single cfg lastSig t acts frame_sig now hlive
  refine ⟨fun heq => ⟨?_, ?_⟩, fun hlt => ⟨?_, ?_⟩, fun hgt => ⟨?_, ?_⟩⟩
  · rw [hsingle, if_pos (le_of_eq heq)]
  · simp [frame_changed_significantly, heq]
  · rw [hsingle, if_pos (le_of_lt hlt)]
  · simp [frame_changed_significantly, not_le.mpr hlt]
  · rw [hsingle, if_neg (not_le.mpr hgt)]
  · simp [frame_changed_significantly, le_of_lt hgt]

/-- C10 witness: with the default threshold 6, fingerprint 63 against
last-inferred 0 (distance exactly 6) is simultaneously returned by the cache
lookup and classified as significantly changed. -/
theorem c10_witness :
    (cached_actions cfgDefault [(0, 0, [])] 63 1).2 = some [] ∧
    frame_changed_significantly cfgDefault (some 0) 63 = true :=
  (c10_boundary_inclusive_both_sides cfgDefault 0 63 0 1 [] (by norm_num [cfgDefault])).1
    (by decide)

theorem le_apply_cooldown (cfg : AgentConfig) (actions : List Action) (now cur : ℚ) :
    cur ≤ apply_cooldown cfg actions now cur := by
  rw [apply_cooldown]
  split
  · exact le_max_left _ _
  · exact le_rfl

/-- C6: across any sequence of `_apply_cooldown` calls, with arbitrary
batches and arbitrary `now` values in any order, `_cooldown_until_ts` never
decreases; each call with positive computed cooldown sets it to
`max(previous, now + cooldown)`, a call with zero (or negative) computed
cooldown leaves it unchanged, and a cooldown not exceeding the remaining
window leaves it unchanged. -/
theorem c6_cooldown_monotonic (cfg : AgentConfig) :
    (∀ (calls : List (List Action × ℚ)) (cur : ℚ),
        cur ≤ calls.foldl (fun c p => apply_cooldown cfg p.1 p.2 c) cur) ∧
    (∀ (actions : List Action) (now cur : ℚ), 0 < computedCooldown cfg actions →
        apply_cooldown cfg actions now cur = max cur (now + computedCooldown cfg actions)) ∧
    (∀ (actions : List Action) (now cur : ℚ), computedCooldown cfg actions ≤ 0 →
        apply_cooldown cfg actions now cur = cur) ∧
    (∀ (actions : List Action) (now cur : ℚ), now + computedCooldown cfg actions ≤ cur →
        apply_cooldown cfg actions now cur = cur) := by
  refine ⟨?_, ?_, ?_, ?_⟩
  · intro calls
    induction calls with
    | nil => intro cur; exact le_rfl
    | cons p rest ih =>
      intro cur
      exact le_trans (le_apply_cooldown cfg p.1 p.2 cur) (ih _)
  · intro actions now cur hpos
    rw [apply_cooldown, if_pos hpos]
  · intro actions now cur hnonpos
    rw [apply_cooldown, if_neg (not_lt.mpr hnonpos)]
  · intro actions now cur hsmall
    rw [apply_cooldown]
    split
    · exact max_eq_left hsmall
    · rfl

/-- C6 witness: a single `click_left` batch at time 1 from a clear window
extends the suppression timestamp to `1 + 0.6`. -/
theorem c6_witness :
    apply_cooldown cfgDefault [{ type := "click_left" }] 1 0 =
      max 0 (1 + computedCooldown cfgDefault [{ type := "click_left" }]) :=
  (c6_cooldown_monotonic cfgDefault).2.1 [{ type := "click_left" }] 1 0
    (by
      rw [show computedCooldown cfgDefault [{ type := "click_left" }] =
          cfgDefault.cooldown_default_s from by rw [computedCooldown]; rfl]
      norm_num [cfgDefault])

/-- C7: the rate-limit check: a first check for a key allows and records the
time; a check earlier than the minimum interval after the recorded time
denies and leaves the map unchanged; a check at exactly the recorded time
plus the interval allows and records; and the `t`, `t + Δ/2`, `t + Δ`
sequence yields allowed, denied, allowed. -/
theorem c7_rate_limiter (k : String) (min_interval_s : ℚ) :
    (∀ (now : ℚ) (m : List (String × ℚ)), lastActionGet m k = none →
        too_frequent k min_interval_s now m = (false, lastActionSet m k now)) ∧
    (∀ (t2 : ℚ) (m : List (String × ℚ)) (last_time : ℚ),
        lastActionGet m k = some last_time → t2 - last_time < min_interval_s →
        too_frequent k min_interval_s t2 m = (true, m)) ∧
    (∀ (m : List (String × ℚ)) (last_time : ℚ), lastActionGet m k = some last_time →
        too_frequent k min_interval_s (last_time + min_interval_s) m =
          (false, lastActionSet m k (last_time + min_interval_s))) ∧
    (∀ t : ℚ, 0 < min_interval_s →
        (too_frequent k min_interval_s t []).1 = false ∧
        (too_frequent k min_interval_s (t + min_interval_s / 2)
          (too_frequent k min_interval_s t []).2).1 = true ∧
        (too_frequent k min_interval_s (t + min_interval_s)
          (too_frequent k min_interval_s (t + min_interval_s / 2)
            (too_frequent k min_interval_s t []).2).2).1 = false) := by
  refine ⟨?_, ?_, ?_, ?_⟩
  · intro now m hnone
    rw [too_frequent, hnone]
  · intro t2 m last_time hsome hlt
    rw [too_frequent, hsome]
    simp only [if_pos hlt]
  · intro m last_time hsome
    rw [too_frequent, hsome]
    show (if last_time + min_interval_s - last_time < min_interval_s then (true, m)
        else (false, lastActionSet m k (last_time + min_interval_s))) = _
    rw [if_neg (by linarith : ¬ (last_time + min_interval_s - last_time < min_interval_s))]
  · intro t hpos
    have h0 : lastActionGet [] k = none := rfl
    have hstep1 : too_frequent k min_interval_s t [] = (false, [(k, t)]) := by
      rw [too_frequent, h0]
      rfl
    have hget1 : lastActionGet [(k, t)] k = some t := by
      simp [lastActionGet]
    have hstep2 : too_frequent k min_interval_s (t + min_interval_s / 2) [(k, t)] =
        (true, [(k, t)]) := by
      rw [too_frequent, hget1]
      show (if t + min_interval_s / 2 - t < min_interval_s then (true, [(k, t)])
          else (false, lastActionSet [(k, t)] k (t + min_interval_s / 2))) = _
      rw [if_pos (by linarith : t + min_interval_s / 2 - t < min_interval_s)]
    have hstep3 : (too_frequent k min_interval_s (t + min_interval_s) [(k, t)]).1 = false := by
      rw [too_frequent, hget1]
      show (if t + min_interval_s - t < min_interval_s then (true, [(k, t)])
          else (false, lastActionSet [(k, t)] k (t + min_interval_s))).1 = _
      rw [if_neg (by linarith : ¬ (t + min_interval_s - t < min_interval_s))]
    refine ⟨by rw [hstep1], ?_, ?_⟩
    · rw [hstep1]
      simp only [hstep2]
    · rw [hstep1]
      simp only [hstep2]
      exact hstep3

/-- C7 witness: for the `click_left` key with the default 0.3 s interval,
checks at times 0, 0.15 and 0.3 yield allowed, denied, allowed. -/
theorem c7_witness :
    (too_frequent "click_left" 0.3 0 []).1 = false ∧
    (too_frequent "click_left" 0.3 (0 + 0.3 / 2) (too_frequent "click_left" 0.3 0 []).2).1 =
      true ∧
    (too_frequent "click_left" 0.3 (0 + 0.3)
      (too_frequent "click_left" 0.3 (0 + 0.3 / 2)
        (too_frequent "click_left" 0.3 0 []).2).2).1 = false :=
  (c7_rate_limiter "click_left" 0.3).2.2.2 0 (by norm_num)

/-- C8: `parse_actions` is a total function (no reply text can make it raise):
for every extracted payload it returns at most 3 actions; when no JSON
payload can be extracted (`none`, which also covers the empty reply) or the
payload is not a list, it returns the empty list; and a malformed element is
dropped individually — the loop continues with the remaining elements
unchanged. -/
theorem c8_parse_never_raises_bounded (width height : Int) :
    (∀ payload : Option JValue, (parse_actions payload width height).length ≤ 3) ∧
    parse_actions none width height = [] ∧
    (∀ v : JValue, isListPayload v = false → parse_actions (some v) width height = []) ∧
    (∀ (item : JValue) (rest : List JValue) (acc : List Action),
        itemAction width height item = none →
        parseLoop width height (item :: rest) acc = parseLoop width height rest acc) := by
  refine ⟨?_, rfl, ?_, ?_⟩
  · intro payload
    match payload with
    | none => simp [parse_actions]
    | some v =>
      cases v <;> simp [parse_actions, List.length_take]
  · intro v hv
    cases v <;> simp_all [parse_actions, isListPayload]
  · intro item rest acc hdrop
    rw [parseLoop, hdrop]

/-- C8 witness: a non-list payload (a bare string) validates to the empty
action batch, of length at most 3. -/
theorem c8_witness :
    parse_actions (some (JValue.jstr "no actions here")) 100 80 = [] :=
  (c8_parse_never_raises_bounded 100 80).2.2.1 (JValue.jstr "no actions here") rfl

/-- C9: on a cache hit, the tick executes the cached actions (outcome
`hit acts`, no inference call) and leaves the last-inference timestamp, the
last-inferred fingerprint and the consecutive-empty-result counter unchanged
— even when the cached batch is empty. -/
theorem c9_cache_hit_preserves_inference_state (cfg : AgentConfig) (st : AgentSt)
    (now : ℚ) (frame_sig : Nat) (gen : Except Unit OllamaResponse)
    (payload : Option JValue) (width height : Int) (acts : List Action)
    (hhit : (cached_actions cfg st.cache frame_sig now).2 = some acts) :
    (run_tick cfg st now frame_sig gen payload width height).1.last_llm_ts = st.last_llm_ts ∧
    (run_tick cfg st now frame_sig gen payload width height).1.last_frame_sig =
      st.last_frame_sig ∧
    (run_tick cfg st now frame_sig gen payload width height).1.empty_response_count =
      st.empty_response_count ∧
    (run_tick cfg st now frame_sig gen payload width height).2 = TickOutcome.hit acts := by
  simp [run_tick, hhit]

/-- C9 witness: a tick hitting a cached empty batch for fingerprint 7 keeps
`last_llm_ts = 5`, `last_frame_sig = 9` and the empty counter at 2, and makes
no inference call. -/
theorem c9_witness :
    (run_tick cfgDefault stHit 1 7 (Except.error ()) none 100 80).1.last_llm_ts =
      stHit.last_llm_ts ∧
    (run_tick cfgDefault stHit 1 7 (Except.error ()) none 100 80).1.last_frame_sig =
      stHit.last_frame_sig ∧
    (run_tick cfgDefault stHit 1 7 (Except.error ()) none 100 80).1.empty_response_count =
      stHit.empty_response_count ∧
    (run_tick cfgDefault stHit 1 7 (Except.error ()) none 100 80).2 = TickOutcome.hit [] :=
  c9_cache_hit_preserves_inference_state cfgDefault stHit 1 7 (Except.error ()) none 100 80 []
    (by rw [stHit, cached_actions_single cfgDefault 7 0 [] 7 1 (by norm_num [cfgDefault])]
        decide)

end AgentModel
